import Mathlib

/-!
Host-object resource client (`fmc/host_object.go`)

A shallow embedding of the five host-object operations of the FMC client:
`GetHostObjectByNameOrValue`, `CreateHostObject`, `GetHostObject`,
`UpdateHostObject` and `DeleteHostObject`.

* The `(value, error)` results of the operations are pairs of options: a nil
  pointer / nil error is `none`. The results of the library calls they make
  (`json.Marshal`, `http.NewRequestWithContext`) are `Except` values.
* The collaborators that are not part of the file (`http.NewRequestWithContext`
  and the client's `DoRequest`) are fields of a `World`; every theorem is
  universally quantified over it. The library parses the URL string an operation
  builds, and the request it returns carries the parsed URL: `World.urlString`
  gives the string form of that URL.
* `DoRequest` talks to the network, so every operation threads the list of
  `DoRequest` calls made so far: the world's reply may depend on that history,
  and the list doubles as the trace in which the calls of an operation are
  counted.
-/

namespace Fmc

/-! ## Data model -/

/-- The struct `HostObjectUpdateInput` (source lines 11-18). -/
structure HostObjectUpdateInput where
  Name : String
  Value : String
  Overridable : Bool
  Description : String
  Type_ : String
  ID : String
deriving DecidableEq, Repr

/-- The struct `HostObject` (source lines 20-26); the field `Type` is spelled `Type_`. -/
structure HostObject where
  Name : String
  Value : String
  Overridable : Bool
  Description : String
  Type_ : String
deriving DecidableEq, Repr

/-- The anonymous struct `Links` with a self and a parent reference. -/
structure ItemLinks where
  Self : String
  Parent : String
deriving DecidableEq, Repr

/-- The anonymous struct `Metadata.Domain` of `HostObjectResponse`. -/
structure MetadataDomain where
  Name : String
  ID : String
deriving DecidableEq, Repr

/-- The anonymous struct `Metadata` of `HostObjectResponse`; `Lastuser` has the
single field `Name`. -/
structure Metadata where
  LastuserName : String
  Domain : MetadataDomain
  Iptype : String
  Parenttype : String
deriving DecidableEq, Repr

/-- The struct `HostObjectResponse` (source lines 28-50). -/
structure HostObjectResponse where
  Links : ItemLinks
  Type_ : String
  Value : String
  Overridable : Bool
  Description : String
  ID : String
  Name : String
  Metadata : Metadata
deriving DecidableEq, Repr

/-- An element of `HostObjectsResponse.Items` (source lines 56-64). -/
structure HostObjectsItem where
  Links : ItemLinks
  Type_ : String
  ID : String
  Name : String
deriving DecidableEq, Repr

/-- The anonymous struct `Paging` of `HostObjectsResponse`. -/
structure Paging where
  Offset : Int
  Limit : Int
  Count : Int
  Pages : Int
deriving DecidableEq, Repr

/-- The struct `HostObjectsResponse` (source lines 52-71); its `Links` has the
single field `Self`. -/
structure HostObjectsResponse where
  LinksSelf : String
  Items : List HostObjectsItem
  Paging : Paging
deriving DecidableEq, Repr

/-- The zero value `HostObjectResponse{}`. -/
def HostObjectResponse.zero : HostObjectResponse :=
  ⟨⟨"", ""⟩, "", "", false, "", "", "", ⟨"", ⟨"", ""⟩, "", ""⟩⟩

/-- The zero value `HostObjectsResponse{}`. -/
def HostObjectsResponse.zero : HostObjectsResponse :=
  ⟨"", [], ⟨0, 0, 0, 0⟩⟩

/-! ## JSON bodies -/

/-- A JSON scalar as the two input structs need it: a string or a boolean. -/
inductive JsonValue where
  | str (s : String)
  | bool (b : Bool)
deriving DecidableEq, Repr

/-- The JSON document produced by `json.Marshal` on a pointer to one of the two
input structs: `null` for a nil pointer, otherwise an object whose members are
listed in the order of the struct's fields. -/
inductive Json where
  | null
  | obj (members : List (String × JsonValue))
deriving DecidableEq, Repr

/-- The keys of a JSON document, in order (none for `null`). -/
def Json.keys : Json → List String
  | .null => []
  | .obj members => members.map Prod.fst

/-- The value stored under a key, if any. -/
def Json.lookup (k : String) : Json → Option JsonValue
  | .null => none
  | .obj members => (members.find? (fun m => m.1 == k)).map Prod.snd

/-- The call `json.Marshal(&object)` for `object *HostObject`. The keys are the `json`
struct tags of source lines 21-25; no tag carries `omitempty`, so every field is
written. encoding/json has no failing case for a struct of strings and booleans:
the result is always `.ok`. -/
def marshalHostObject (object : Option HostObject) : Except String Json :=
  match object with
  | none => .ok Json.null
  | some o =>
    .ok (Json.obj [("name", .str o.Name), ("value", .str o.Value),
      ("overridable", .bool o.Overridable), ("description", .str o.Description),
      ("type", .str o.Type_)])

/-- The call `json.Marshal(&object)` for `object *HostObjectUpdateInput` (struct tags of
source lines 12-17). -/
def marshalHostObjectUpdateInput (object : Option HostObjectUpdateInput) :
    Except String Json :=
  match object with
  | none => .ok Json.null
  | some o =>
    .ok (Json.obj [("name", .str o.Name), ("value", .str o.Value),
      ("overridable", .bool o.Overridable), ("description", .str o.Description),
      ("type", .str o.Type_), ("id", .str o.ID)])

/-! ## Requests and the outside world -/

/-- A `context.Context` handed in by the caller: the nil interface value or a
live context, told apart by a tag. -/
inductive Context where
  | nilContext
  | live (tag : Nat)
deriving DecidableEq, Repr

/-- The `*http.Request` built by `http.NewRequestWithContext(ctx, method, url, body)`.
The library parses the string `url`; `url` here is the URL the request carries, in its
string form `req.URL.String()`, which need not be the string that was parsed. `body` is
`none` for a nil body. -/
structure Request where
  ctx : Context
  method : String
  url : String
  body : Option Json
deriving DecidableEq, Repr

/-- The kind of pointer passed to `DoRequest` as decoding target. -/
inductive Target where
  | hostObjectsResponse
  | hostObjectResponse
  | nilTarget
deriving DecidableEq, Repr

/-- One invocation `v.DoRequest(req, target, status)`. -/
structure Call where
  req : Request
  target : Target
  status : Nat
deriving DecidableEq, Repr

/-- What one `DoRequest` invocation leaves behind: the returned error (`none`
for nil) and the contents of the target afterwards (`list` is read when the
target is a `*HostObjectsResponse`, `item` when it is a `*HostObjectResponse`). -/
structure Reply where
  err : Option String
  list : HostObjectsResponse
  item : HostObjectResponse
deriving DecidableEq, Repr

/-- The collaborators outside the file. `newRequestErr ctx method url` is the
error of `http.NewRequestWithContext` (`none` when the request is built);
`urlString raw` is the string form of the URL the library parses from `raw` (the
URL of the request it builds); `doRequest history call` is the behaviour of
`DoRequest` on `call` after the earlier calls `history`. -/
structure World where
  newRequestErr : Context → String → String → Option String
  urlString : String → String
  doRequest : List Call → Call → Reply

/-- The part of `Client` the operations read. -/
structure Client where
  domainBaseURL : String

/-- The constant `http.StatusOK`. -/
def StatusOK : Nat := 200

/-- The constant `http.StatusCreated`. -/
def StatusCreated : Nat := 201

/-- The call `http.NewRequestWithContext(ctx, method, url, body)`: the error the library
reports, or the request, which carries the URL parsed from `url`. -/
def NewRequestWithContext (w : World) (ctx : Context) (method url : String)
    (body : Option Json) : Except String Request :=
  match w.newRequestErr ctx method url with
  | some e => .error e
  | none => .ok ⟨ctx, method, w.urlString url, body⟩

/-- The call `v.DoRequest(req, target, status)`: the world's reply, and the trace
extended by this call. -/
def DoRequest (w : World) (trace : List Call) (req : Request) (target : Target)
    (status : Nat) : Reply × List Call :=
  (w.doRequest trace ⟨req, target, status⟩, trace ++ [⟨req, target, status⟩])

/-! ## The operations -/

/-- The result of the four operations that return `(*HostObjectResponse, error)`,
together with the trace of `DoRequest` calls. -/
abbrev Outcome := (Option HostObjectResponse × Option String) × List Call

/-- The function `GetHostObject` (source lines 113-125). -/
def GetHostObject (v : Client) (w : World) (trace : List Call) (ctx : Context)
    (id : String) : Outcome :=
  let url := v.domainBaseURL ++ "/object/hosts/" ++ id
  match NewRequestWithContext w ctx "GET" url none with
  | .error err => ((none, some ("getting host objects: " ++ url ++ " - " ++ err)), trace)
  | .ok req =>
    let r := DoRequest w trace req .hostObjectResponse StatusOK
    match r.1.err with
    | some err => ((none, some ("getting host objects: " ++ url ++ " - " ++ err)), r.2)
    | none => ((some r.1.item, none), r.2)

/-- The function `GetHostObjectByNameOrValue` (source lines 73-91). `toString l` renders
the verb `%d`. -/
def GetHostObjectByNameOrValue (v : Client) (w : World) (trace : List Call)
    (ctx : Context) (nameOrValue : String) : Outcome :=
  let url := v.domainBaseURL ++ "/object/hosts?expanded=false&filter=nameOrValue:" ++ nameOrValue
  match NewRequestWithContext w ctx "GET" url none with
  | .error err =>
    ((none, some ("getting host object by name/value: " ++ url ++ " - " ++ err)), trace)
  | .ok req =>
    let r := DoRequest w trace req .hostObjectsResponse StatusOK
    match r.1.err with
    | some err =>
      ((none, some ("getting host object by name/value: " ++ url ++ " - " ++ err)), r.2)
    | none =>
      let resp := r.1.list
      let l := resp.Items.length
      if l > 1 then
        ((none, some ("duplicates found, length of response is: " ++ toString l ++
          ", expected 1, please search using a unique id, name or value")), r.2)
      else if h0 : l = 0 then
        ((none, some ("no host objects found, length of response is: " ++ toString l ++
          ", expected 1, please check your filter")), r.2)
      else
        GetHostObject v w r.2 ctx (resp.Items.get ⟨0, Nat.pos_of_ne_zero h0⟩).ID

/-- The function `CreateHostObject` (source lines 95-111). -/
def CreateHostObject (v : Client) (w : World) (trace : List Call) (ctx : Context)
    (object : Option HostObject) : Outcome :=
  let url := v.domainBaseURL ++ "/object/hosts"
  match marshalHostObject object with
  | .error err => ((none, some ("creating host objects: " ++ url ++ " - " ++ err)), trace)
  | .ok body =>
    match NewRequestWithContext w ctx "POST" url (some body) with
    | .error err => ((none, some ("creating host objects: " ++ url ++ " - " ++ err)), trace)
    | .ok req =>
      let r := DoRequest w trace req .hostObjectResponse StatusCreated
      match r.1.err with
      | some err => ((none, some ("getting host objects: " ++ url ++ " - " ++ err)), r.2)
      | none => ((some r.1.item, none), r.2)

/-- The function `UpdateHostObject` (source lines 127-143). -/
def UpdateHostObject (v : Client) (w : World) (trace : List Call) (ctx : Context)
    (id : String) (object : Option HostObjectUpdateInput) : Outcome :=
  let url := v.domainBaseURL ++ "/object/hosts/" ++ id
  match marshalHostObjectUpdateInput object with
  | .error err => ((none, some ("updating host objects: " ++ url ++ " - " ++ err)), trace)
  | .ok body =>
    match NewRequestWithContext w ctx "PUT" url (some body) with
    | .error err => ((none, some ("updating host objects: " ++ url ++ " - " ++ err)), trace)
    | .ok req =>
      let r := DoRequest w trace req .hostObjectResponse StatusOK
      match r.1.err with
      | some err => ((none, some ("getting host objects: " ++ url ++ " - " ++ err)), r.2)
      | none => ((some r.1.item, none), r.2)

/-- The function `DeleteHostObject` (source lines 145-153): the returned error and the
trace. -/
def DeleteHostObject (v : Client) (w : World) (trace : List Call) (ctx : Context)
    (id : String) : Option String × List Call :=
  let url := v.domainBaseURL ++ "/object/hosts/" ++ id
  match NewRequestWithContext w ctx "DELETE" url none with
  | .error err => (some ("deleting host objects: " ++ url ++ " - " ++ err), trace)
  | .ok req =>
    let r := DoRequest w trace req .nilTarget StatusOK
    (r.1.err, r.2)

/-! ## Text of error messages -/

/-- The message `msg` contains the text `part` as a contiguous piece. -/
def hasSubstr (msg part : String) : Prop := part.data <:+: msg.data

instance (msg part : String) : Decidable (hasSubstr msg part) := by
  unfold hasSubstr; infer_instance

/-- A result pair is all-or-nothing: an object and no error, or no object and an error. -/
def allOrNothing (r : Option HostObjectResponse × Option String) : Prop :=
  (r.1 ≠ none ∧ r.2 = none) ∨ (r.1 = none ∧ r.2 ≠ none)

/-! ## Sample worlds -/

/-- A client bound to one domain of a management centre. -/
def sampleClient : Client := ⟨"https://fmc/d"⟩

/-- A summary item with the given id and name. -/
def sampleItem (id name : String) : HostObjectsItem :=
  ⟨⟨"", ""⟩, "Host", id, name⟩

/-- A full host object with the given id, name and value. -/
def sampleHost (id name value : String) : HostObjectResponse :=
  ⟨⟨"", ""⟩, "Host", value, false, "", id, name, ⟨"admin", ⟨"Global", "d"⟩, "V_4", "NetworkAddress"⟩⟩

/-- The path of a URL with every space written `%20`; the text from the first `?`
on (the query) is kept as it is. -/
def escapePathSpaces : List Char → List Char
  | [] => []
  | c :: rest =>
    if c = '?' then c :: rest
    else if c = ' ' then '%' :: '2' :: '0' :: escapePathSpaces rest
    else c :: escapePathSpaces rest

/-- The string form of the URL the library parses from `raw`, for the URLs of the sample
worlds: a scheme, a host, a path and possibly a query, no fragment, and no character
that the library escapes other than a space in the path. The library writes such a
space as `%20` and leaves everything else of these URLs unchanged. -/
def sampleURLString (raw : String) : String :=
  ⟨escapePathSpaces raw.data⟩

/-- A world in which `http.NewRequestWithContext` rejects the nil context (as the
library does, with this message) and builds every other request, the URL of a
request is rendered by `sampleURLString`, the list endpoint answers with `items`,
and every other exchange ends with `err`, leaving `item` in the target. -/
def sampleWorld (items : List HostObjectsItem) (item : HostObjectResponse)
    (err : Option String) : World where
  newRequestErr := fun ctx _ _ =>
    match ctx with
    | .nilContext => some "net/http: nil Context"
    | .live _ => none
  urlString := sampleURLString
  doRequest := fun _ call =>
    match call.target with
    | .hostObjectsResponse => ⟨none, ⟨"", items, ⟨0, 25, items.length, 1⟩⟩, HostObjectResponse.zero⟩
    | _ => ⟨err, HostObjectsResponse.zero, item⟩

/-! ## Unfolding lemmas -/

theorem NewRequestWithContext_ok {w : World} {ctx : Context} {method url : String}
    (body : Option Json) (h : w.newRequestErr ctx method url = none) :
    NewRequestWithContext w ctx method url body = .ok ⟨ctx, method, w.urlString url, body⟩ := by
  simp [NewRequestWithContext, h]

theorem NewRequestWithContext_error {w : World} {ctx : Context} {method url e : String}
    (body : Option Json) (h : w.newRequestErr ctx method url = some e) :
    NewRequestWithContext w ctx method url body = .error e := by
  simp [NewRequestWithContext, h]

/-- The wrapped message `label ++ url ++ " - " ++ cause` contains the URL. -/
theorem hasSubstr_wrapped_url (label url cause : String) :
    hasSubstr (label ++ url ++ " - " ++ cause) url := by
  refine ⟨label.data, (" - " ++ cause).data, ?_⟩
  simp [String.data_append]

/-- The wrapped message `label ++ url ++ " - " ++ cause` contains the cause. -/
theorem hasSubstr_wrapped_cause (label url cause : String) :
    hasSubstr (label ++ url ++ " - " ++ cause) cause := by
  refine ⟨(label ++ url ++ " - ").data, [], ?_⟩
  simp [String.data_append]

/-- The wrapped message `label ++ url ++ " - " ++ cause` contains every word the label
starts with. -/
theorem hasSubstr_wrapped_label (label url cause word : String)
    (h : word.data <+: label.data) :
    hasSubstr (label ++ url ++ " - " ++ cause) word := by
  obtain ⟨rest, hr⟩ := h
  refine ⟨[], rest ++ (url ++ " - " ++ cause).data, ?_⟩
  simp [String.data_append, ← hr]

/-- The trace of `GetHostObject`: one call when the request is built, none otherwise. -/
theorem GetHostObject_trace (v : Client) (w : World) (trace : List Call) (ctx : Context)
    (id : String) :
    (GetHostObject v w trace ctx id).2 =
      if w.newRequestErr ctx "GET" (v.domainBaseURL ++ "/object/hosts/" ++ id) = none then
        trace ++ [⟨⟨ctx, "GET", w.urlString (v.domainBaseURL ++ "/object/hosts/" ++ id), none⟩,
          .hostObjectResponse, 200⟩]
      else trace := by
  cases hn : w.newRequestErr ctx "GET" (v.domainBaseURL ++ "/object/hosts/" ++ id) with
  | some e => simp [GetHostObject, NewRequestWithContext_error none hn]
  | none =>
    simp only [GetHostObject, NewRequestWithContext_ok none hn, DoRequest, StatusOK]
    cases (w.doRequest trace ⟨⟨ctx, "GET", w.urlString (v.domainBaseURL ++ "/object/hosts/" ++ id), none⟩,
      .hostObjectResponse, 200⟩).err <;> simp

/-- The trace of `CreateHostObject`, whatever the body. -/
theorem CreateHostObject_trace (v : Client) (w : World) (trace : List Call) (ctx : Context)
    (object : Option HostObject) :
    ∃ body, marshalHostObject object = .ok body ∧
      (CreateHostObject v w trace ctx object).2 =
        if w.newRequestErr ctx "POST" (v.domainBaseURL ++ "/object/hosts") = none then
          trace ++ [⟨⟨ctx, "POST", w.urlString (v.domainBaseURL ++ "/object/hosts"), some body⟩,
            .hostObjectResponse, 201⟩]
        else trace := by
  obtain ⟨body, hb⟩ : ∃ body, marshalHostObject object = .ok body := by
    cases object <;> exact ⟨_, rfl⟩
  refine ⟨body, hb, ?_⟩
  cases hn : w.newRequestErr ctx "POST" (v.domainBaseURL ++ "/object/hosts") with
  | some e => simp [CreateHostObject, hb, NewRequestWithContext_error _ hn]
  | none =>
    simp only [CreateHostObject, hb, NewRequestWithContext_ok _ hn, DoRequest, StatusCreated]
    cases (w.doRequest trace ⟨⟨ctx, "POST", w.urlString (v.domainBaseURL ++ "/object/hosts"), some body⟩,
      .hostObjectResponse, 201⟩).err <;> simp

/-- The trace of `UpdateHostObject`, whatever the body. -/
theorem UpdateHostObject_trace (v : Client) (w : World) (trace : List Call) (ctx : Context)
    (id : String) (object : Option HostObjectUpdateInput) :
    ∃ body, marshalHostObjectUpdateInput object = .ok body ∧
      (UpdateHostObject v w trace ctx id object).2 =
        if w.newRequestErr ctx "PUT" (v.domainBaseURL ++ "/object/hosts/" ++ id) = none then
          trace ++ [⟨⟨ctx, "PUT", w.urlString (v.domainBaseURL ++ "/object/hosts/" ++ id), some body⟩,
            .hostObjectResponse, 200⟩]
        else trace := by
  obtain ⟨body, hb⟩ : ∃ body, marshalHostObjectUpdateInput object = .ok body := by
    cases object <;> exact ⟨_, rfl⟩
  refine ⟨body, hb, ?_⟩
  cases hn : w.newRequestErr ctx "PUT" (v.domainBaseURL ++ "/object/hosts/" ++ id) with
  | some e => simp [UpdateHostObject, hb, NewRequestWithContext_error _ hn]
  | none =>
    simp only [UpdateHostObject, hb, NewRequestWithContext_ok _ hn, DoRequest, StatusOK]
    cases (w.doRequest trace ⟨⟨ctx, "PUT", w.urlString (v.domainBaseURL ++ "/object/hosts/" ++ id),
      some body⟩, .hostObjectResponse, 200⟩).err <;> simp

/-- The trace of `DeleteHostObject`. -/
theorem DeleteHostObject_trace (v : Client) (w : World) (trace : List Call) (ctx : Context)
    (id : String) :
    (DeleteHostObject v w trace ctx id).2 =
      if w.newRequestErr ctx "DELETE" (v.domainBaseURL ++ "/object/hosts/" ++ id) = none then
        trace ++ [⟨⟨ctx, "DELETE", w.urlString (v.domainBaseURL ++ "/object/hosts/" ++ id), none⟩,
          .nilTarget, 200⟩]
      else trace := by
  cases hn : w.newRequestErr ctx "DELETE" (v.domainBaseURL ++ "/object/hosts/" ++ id) with
  | some e => simp [DeleteHostObject, NewRequestWithContext_error none hn]
  | none => simp [DeleteHostObject, NewRequestWithContext_ok none hn, DoRequest, StatusOK]

/-- The lookup, case by case: request not built; filter exchange failed; no item; one
item (delegation to `GetHostObject`); two or more items. -/
theorem GetHostObjectByNameOrValue_cases (v : Client) (w : World) (trace : List Call)
    (ctx : Context) (nameOrValue : String) :
    GetHostObjectByNameOrValue v w trace ctx nameOrValue =
      match w.newRequestErr ctx "GET" (v.domainBaseURL ++
          "/object/hosts?expanded=false&filter=nameOrValue:" ++ nameOrValue) with
      | some e =>
        ((none, some ("getting host object by name/value: " ++ (v.domainBaseURL ++
          "/object/hosts?expanded=false&filter=nameOrValue:" ++ nameOrValue) ++ " - " ++ e)),
          trace)
      | none =>
        match (w.doRequest trace ⟨⟨ctx, "GET", w.urlString (v.domainBaseURL ++ "/object/hosts?expanded=false&filter=nameOrValue:" ++ nameOrValue), none⟩,
            .hostObjectsResponse, 200⟩).err,
          (w.doRequest trace ⟨⟨ctx, "GET", w.urlString (v.domainBaseURL ++ "/object/hosts?expanded=false&filter=nameOrValue:" ++ nameOrValue), none⟩,
            .hostObjectsResponse, 200⟩).list.Items with
        | some e, _ =>
          ((none, some ("getting host object by name/value: " ++ (v.domainBaseURL ++
            "/object/hosts?expanded=false&filter=nameOrValue:" ++ nameOrValue) ++ " - " ++ e)),
            trace ++ [⟨⟨ctx, "GET", w.urlString (v.domainBaseURL ++ "/object/hosts?expanded=false&filter=nameOrValue:" ++ nameOrValue), none⟩,
              .hostObjectsResponse, 200⟩])
        | none, [] =>
          ((none, some ("no host objects found, length of response is: " ++ toString 0 ++
            ", expected 1, please check your filter")),
            trace ++ [⟨⟨ctx, "GET", w.urlString (v.domainBaseURL ++ "/object/hosts?expanded=false&filter=nameOrValue:" ++ nameOrValue), none⟩,
              .hostObjectsResponse, 200⟩])
        | none, [it] =>
          GetHostObject v w (trace ++ [⟨⟨ctx, "GET", w.urlString (v.domainBaseURL ++ "/object/hosts?expanded=false&filter=nameOrValue:" ++ nameOrValue), none⟩,
            .hostObjectsResponse, 200⟩]) ctx it.ID
        | none, _ :: _ :: t =>
          ((none, some ("duplicates found, length of response is: " ++ toString (t.length + 2) ++
            ", expected 1, please search using a unique id, name or value")),
            trace ++ [⟨⟨ctx, "GET", w.urlString (v.domainBaseURL ++ "/object/hosts?expanded=false&filter=nameOrValue:" ++ nameOrValue), none⟩,
              .hostObjectsResponse, 200⟩]) := by
  cases hn : w.newRequestErr ctx "GET" (v.domainBaseURL ++
      "/object/hosts?expanded=false&filter=nameOrValue:" ++ nameOrValue) with
  | some e => simp [GetHostObjectByNameOrValue, NewRequestWithContext_error none hn]
  | none =>
    obtain ⟨e, he⟩ | he : (∃ e, (w.doRequest trace ⟨⟨ctx, "GET", w.urlString (v.domainBaseURL ++ "/object/hosts?expanded=false&filter=nameOrValue:" ++ nameOrValue), none⟩,
        .hostObjectsResponse, 200⟩).err = some e) ∨ (w.doRequest trace ⟨⟨ctx, "GET",
        w.urlString (v.domainBaseURL ++ "/object/hosts?expanded=false&filter=nameOrValue:" ++ nameOrValue),
        none⟩, .hostObjectsResponse, 200⟩).err = none := by
      cases (w.doRequest trace ⟨⟨ctx, "GET", w.urlString (v.domainBaseURL ++ "/object/hosts?expanded=false&filter=nameOrValue:" ++ nameOrValue), none⟩,
        .hostObjectsResponse, 200⟩).err with
      | some e => exact Or.inl ⟨e, rfl⟩
      | none => exact Or.inr rfl
    · simp [GetHostObjectByNameOrValue, NewRequestWithContext_ok none hn, DoRequest, StatusOK, he]
    · obtain ⟨items, hi⟩ : ∃ items, (w.doRequest trace ⟨⟨ctx, "GET", w.urlString (v.domainBaseURL ++ "/object/hosts?expanded=false&filter=nameOrValue:" ++ nameOrValue), none⟩,
          .hostObjectsResponse, 200⟩).list.Items = items := ⟨_, rfl⟩
      rcases items with _ | ⟨a, _ | ⟨b, t⟩⟩ <;>
        simp [GetHostObjectByNameOrValue, NewRequestWithContext_ok none hn, DoRequest, StatusOK,
          he, hi]

/-! ## Lookup by name or value -/

/-- C1: when the filter request of `GetHostObjectByNameOrValue` is built and answered
without error and the decoded list has exactly one item, the lookup returns exactly
what `GetHostObject` returns for that item's id, run right after the filter exchange
(same result, same error, same further calls); when the world's replies do not depend
on the earlier calls, this is also what `GetHostObject` returns from the state the
lookup started in. -/
theorem getByNameOrValue_single_eq_get (v : Client) (w : World) (trace : List Call)
    (ctx : Context) (nameOrValue : String) (it : HostObjectsItem)
    (hreq : w.newRequestErr ctx "GET"
      (v.domainBaseURL ++ "/object/hosts?expanded=false&filter=nameOrValue:" ++ nameOrValue) = none)
    (herr : (w.doRequest trace ⟨⟨ctx, "GET",
      w.urlString (v.domainBaseURL ++ "/object/hosts?expanded=false&filter=nameOrValue:" ++ nameOrValue), none⟩,
      .hostObjectsResponse, 200⟩).err = none)
    (hone : (w.doRequest trace ⟨⟨ctx, "GET",
      w.urlString (v.domainBaseURL ++ "/object/hosts?expanded=false&filter=nameOrValue:" ++ nameOrValue), none⟩,
      .hostObjectsResponse, 200⟩).list.Items = [it]) :
    GetHostObjectByNameOrValue v w trace ctx nameOrValue =
        GetHostObject v w (trace ++ [⟨⟨ctx, "GET",
          w.urlString (v.domainBaseURL ++ "/object/hosts?expanded=false&filter=nameOrValue:" ++ nameOrValue),
          none⟩, .hostObjectsResponse, 200⟩]) ctx it.ID ∧
      ((∀ h h2 c, w.doRequest h c = w.doRequest h2 c) →
        (GetHostObjectByNameOrValue v w trace ctx nameOrValue).1 =
          (GetHostObject v w trace ctx it.ID).1) := by
  have key : GetHostObjectByNameOrValue v w trace ctx nameOrValue =
        GetHostObject v w (trace ++ [⟨⟨ctx, "GET",
          w.urlString (v.domainBaseURL ++ "/object/hosts?expanded=false&filter=nameOrValue:" ++ nameOrValue),
          none⟩, .hostObjectsResponse, 200⟩]) ctx it.ID := by
    simp [GetHostObjectByNameOrValue, NewRequestWithContext_ok none hreq, DoRequest, StatusOK,
      herr, hone]
  refine ⟨key, fun hst => ?_⟩
  rw [key]
  cases hn : w.newRequestErr ctx "GET" (v.domainBaseURL ++ "/object/hosts/" ++ it.ID) with
  | some e => simp [GetHostObject, NewRequestWithContext_error none hn]
  | none =>
    simp only [GetHostObject, NewRequestWithContext_ok none hn, DoRequest]
    rw [hst (trace ++ _) trace]
    cases (w.doRequest trace ⟨⟨ctx, "GET", w.urlString (v.domainBaseURL ++ "/object/hosts/" ++ it.ID), none⟩,
      .hostObjectResponse, StatusOK⟩).err <;> rfl

/-- C1 at a concrete world: one summary item `h-1`, whose full object is returned. -/
theorem getByNameOrValue_single_eq_get_witness :
    GetHostObjectByNameOrValue sampleClient
        (sampleWorld [sampleItem "h-1" "web"] (sampleHost "h-1" "web" "10.0.0.1") none)
        [] (.live 0) "web" =
      GetHostObject sampleClient
        (sampleWorld [sampleItem "h-1" "web"] (sampleHost "h-1" "web" "10.0.0.1") none)
        ([] ++ [⟨⟨.live 0, "GET",
          "https://fmc/d/object/hosts?expanded=false&filter=nameOrValue:web",
          none⟩, .hostObjectsResponse, 200⟩]) (.live 0) (sampleItem "h-1" "web").ID :=
  (getByNameOrValue_single_eq_get sampleClient
    (sampleWorld [sampleItem "h-1" "web"] (sampleHost "h-1" "web" "10.0.0.1") none)
    [] (.live 0) "web" (sampleItem "h-1" "web") rfl rfl rfl).1

/-- C2: when the filter request is built and answered without error and the decoded
list has `n` items with `n` different from 1, the lookup returns no object and an
error, and its only `DoRequest` call is the filter request (no by-id GET): for
`n = 0` the error is the not-found message, for `n` at least 2 it is the duplicates
message reporting `n`. -/
theorem getByNameOrValue_not_single (v : Client) (w : World) (trace : List Call)
    (ctx : Context) (nameOrValue : String)
    (hreq : w.newRequestErr ctx "GET"
      (v.domainBaseURL ++ "/object/hosts?expanded=false&filter=nameOrValue:" ++ nameOrValue) = none)
    (herr : (w.doRequest trace ⟨⟨ctx, "GET",
      w.urlString (v.domainBaseURL ++ "/object/hosts?expanded=false&filter=nameOrValue:" ++ nameOrValue), none⟩,
      .hostObjectsResponse, 200⟩).err = none)
    (hn : (w.doRequest trace ⟨⟨ctx, "GET",
      w.urlString (v.domainBaseURL ++ "/object/hosts?expanded=false&filter=nameOrValue:" ++ nameOrValue), none⟩,
      .hostObjectsResponse, 200⟩).list.Items.length ≠ 1) :
    GetHostObjectByNameOrValue v w trace ctx nameOrValue =
      ((none, some (
        if (w.doRequest trace ⟨⟨ctx, "GET",
          w.urlString (v.domainBaseURL ++ "/object/hosts?expanded=false&filter=nameOrValue:" ++ nameOrValue),
          none⟩, .hostObjectsResponse, 200⟩).list.Items.length = 0 then
          "no host objects found, length of response is: 0, expected 1, please check your filter"
        else
          "duplicates found, length of response is: " ++
            toString (w.doRequest trace ⟨⟨ctx, "GET",
              w.urlString (v.domainBaseURL ++ "/object/hosts?expanded=false&filter=nameOrValue:" ++ nameOrValue),
              none⟩, .hostObjectsResponse, 200⟩).list.Items.length ++
            ", expected 1, please search using a unique id, name or value")),
       trace ++ [⟨⟨ctx, "GET",
          w.urlString (v.domainBaseURL ++ "/object/hosts?expanded=false&filter=nameOrValue:" ++ nameOrValue),
          none⟩, .hostObjectsResponse, 200⟩]) := by
  simp only [GetHostObjectByNameOrValue, NewRequestWithContext_ok none hreq, DoRequest, StatusOK,
    herr]
  by_cases h1 : (w.doRequest trace ⟨⟨ctx, "GET",
      w.urlString (v.domainBaseURL ++ "/object/hosts?expanded=false&filter=nameOrValue:" ++ nameOrValue), none⟩,
      .hostObjectsResponse, 200⟩).list.Items.length > 1
  · have h0 : (w.doRequest trace ⟨⟨ctx, "GET",
        w.urlString (v.domainBaseURL ++ "/object/hosts?expanded=false&filter=nameOrValue:" ++ nameOrValue),
        none⟩, .hostObjectsResponse, 200⟩).list.Items.length ≠ 0 := by omega
    simp [h1, h0]
  · have h0 : (w.doRequest trace ⟨⟨ctx, "GET",
        w.urlString (v.domainBaseURL ++ "/object/hosts?expanded=false&filter=nameOrValue:" ++ nameOrValue),
        none⟩, .hostObjectsResponse, 200⟩).list.Items.length = 0 := by omega
    simp [h0]
    rfl

/-- C2 at concrete worlds: an empty list gives the not-found error, a list of two
gives the duplicates error reporting 2; in both the filter request is the only call. -/
theorem getByNameOrValue_not_single_witness :
    GetHostObjectByNameOrValue sampleClient
        (sampleWorld [] (sampleHost "h-1" "web" "10.0.0.1") none) [] (.live 0) "web" =
      ((none, some
        "no host objects found, length of response is: 0, expected 1, please check your filter"),
       [⟨⟨.live 0, "GET", "https://fmc/d/object/hosts?expanded=false&filter=nameOrValue:web",
          none⟩, .hostObjectsResponse, 200⟩]) ∧
    GetHostObjectByNameOrValue sampleClient
        (sampleWorld [sampleItem "h-1" "web", sampleItem "h-2" "web2"]
          (sampleHost "h-1" "web" "10.0.0.1") none) [] (.live 0) "web" =
      ((none, some ("duplicates found, length of response is: 2, expected 1, " ++
          "please search using a unique id, name or value")),
       [⟨⟨.live 0, "GET", "https://fmc/d/object/hosts?expanded=false&filter=nameOrValue:web",
          none⟩, .hostObjectsResponse, 200⟩]) :=
  ⟨getByNameOrValue_not_single sampleClient
      (sampleWorld [] (sampleHost "h-1" "web" "10.0.0.1") none) [] (.live 0) "web"
      rfl rfl (by decide),
   getByNameOrValue_not_single sampleClient
      (sampleWorld [sampleItem "h-1" "web", sampleItem "h-2" "web2"]
        (sampleHost "h-1" "web" "10.0.0.1") none) [] (.live 0) "web"
      rfl rfl (by decide)⟩

/-! ## The requests handed to `DoRequest` -/

/-- C3 fails as stated: the request `GetHostObject` hands to `DoRequest` for the id
"a b" carries the URL the library parsed, whose string form writes the space as `%20`;
it is not the concatenation of the base URL, "/object/hosts/" and the id. -/
theorem request_url_counterexample :
    GetHostObject sampleClient (sampleWorld [] (sampleHost "a b" "web" "10.0.0.1") none)
        [] (.live 0) "a b" =
      ((some (sampleHost "a b" "web" "10.0.0.1"), none),
       [⟨⟨.live 0, "GET", "https://fmc/d/object/hosts/a%20b", none⟩,
          .hostObjectResponse, 200⟩]) ∧
    "https://fmc/d/object/hosts/a%20b" ≠ sampleClient.domainBaseURL ++ "/object/hosts/" ++ "a b" := by
  constructor <;> decide

/-- C3, amended: for every base URL `b`, id and filter value `val`, the calls an operation
adds to the trace carry the method and expected status of the interface table, and
their URL is the one the library parses from the table's URL string, into which the
arguments are concatenated as they are (`urlString` of the concatenation, not the
concatenation itself). The lookup's own request is GET for
`b ++ "/object/hosts?expanded=false&filter=nameOrValue:" ++ val` expecting 200 (followed
at most by the by-id GET of the delegation); Create is POST for `b ++ "/object/hosts"`
expecting 201; Get, Update and Delete are GET, PUT and DELETE for
`b ++ "/object/hosts/" ++ id` expecting 200. An operation whose request is not built
adds no call. -/
theorem requests_follow_interface_table (b id val : String) (w : World) (trace : List Call)
    (ctx : Context) (object : Option HostObject) (upd : Option HostObjectUpdateInput) :
    (∃ new rest, (GetHostObjectByNameOrValue ⟨b⟩ w trace ctx val).2 = trace ++ new ∧
      (rest = [] ∨ ∃ i, rest = [("GET", w.urlString (b ++ "/object/hosts/" ++ i), 200)]) ∧
      new.map (fun c => (c.req.method, c.req.url, c.status)) =
        if w.newRequestErr ctx "GET"
            (b ++ "/object/hosts?expanded=false&filter=nameOrValue:" ++ val) = none then
          ("GET", w.urlString (b ++ "/object/hosts?expanded=false&filter=nameOrValue:" ++ val),
            200) :: rest
        else []) ∧
    (∃ new, (CreateHostObject ⟨b⟩ w trace ctx object).2 = trace ++ new ∧
      new.map (fun c => (c.req.method, c.req.url, c.status)) =
        if w.newRequestErr ctx "POST" (b ++ "/object/hosts") = none then
          [("POST", w.urlString (b ++ "/object/hosts"), 201)]
        else []) ∧
    (∃ new, (GetHostObject ⟨b⟩ w trace ctx id).2 = trace ++ new ∧
      new.map (fun c => (c.req.method, c.req.url, c.status)) =
        if w.newRequestErr ctx "GET" (b ++ "/object/hosts/" ++ id) = none then
          [("GET", w.urlString (b ++ "/object/hosts/" ++ id), 200)]
        else []) ∧
    (∃ new, (UpdateHostObject ⟨b⟩ w trace ctx id upd).2 = trace ++ new ∧
      new.map (fun c => (c.req.method, c.req.url, c.status)) =
        if w.newRequestErr ctx "PUT" (b ++ "/object/hosts/" ++ id) = none then
          [("PUT", w.urlString (b ++ "/object/hosts/" ++ id), 200)]
        else []) ∧
    (∃ new, (DeleteHostObject ⟨b⟩ w trace ctx id).2 = trace ++ new ∧
      new.map (fun c => (c.req.method, c.req.url, c.status)) =
        if w.newRequestErr ctx "DELETE" (b ++ "/object/hosts/" ++ id) = none then
          [("DELETE", w.urlString (b ++ "/object/hosts/" ++ id), 200)]
        else []) := by
  refine ⟨?_, ?_, ?_, ?_, ?_⟩
  · rw [GetHostObjectByNameOrValue_cases]
    cases hn : w.newRequestErr ctx "GET"
        (b ++ "/object/hosts?expanded=false&filter=nameOrValue:" ++ val) with
    | some e => exact ⟨[], [], by simp, Or.inl rfl, by simp⟩
    | none =>
      simp only []
      split
      · exact ⟨[_], [], rfl, Or.inl rfl, by simp⟩
      · exact ⟨[_], [], rfl, Or.inl rfl, by simp⟩
      · rename_i it _ _
        cases hg : w.newRequestErr ctx "GET" (b ++ "/object/hosts/" ++ it.ID) with
        | some e =>
          refine ⟨[⟨⟨ctx, "GET", w.urlString (b ++ "/object/hosts?expanded=false&filter=nameOrValue:" ++ val),
            none⟩, .hostObjectsResponse, 200⟩], [], ?_, Or.inl rfl, by simp⟩
          rw [GetHostObject_trace]; simp [hg]
        | none =>
          refine ⟨[⟨⟨ctx, "GET", w.urlString (b ++ "/object/hosts?expanded=false&filter=nameOrValue:" ++ val),
            none⟩, .hostObjectsResponse, 200⟩,
            ⟨⟨ctx, "GET", w.urlString (b ++ "/object/hosts/" ++ it.ID), none⟩, .hostObjectResponse, 200⟩],
            [_], ?_, Or.inr ⟨it.ID, rfl⟩, by simp⟩
          rw [GetHostObject_trace]; simp [hg]
      · exact ⟨[_], [], rfl, Or.inl rfl, by simp⟩
  · obtain ⟨body, -, h⟩ := CreateHostObject_trace ⟨b⟩ w trace ctx object
    rw [h]
    split
    · exact ⟨[_], rfl, by simp⟩
    · exact ⟨[], by simp, by simp⟩
  · rw [GetHostObject_trace]
    split
    · exact ⟨[_], rfl, by simp⟩
    · exact ⟨[], by simp, by simp⟩
  · obtain ⟨body, -, h⟩ := UpdateHostObject_trace ⟨b⟩ w trace ctx id upd
    rw [h]
    split
    · exact ⟨[_], rfl, by simp⟩
    · exact ⟨[], by simp, by simp⟩
  · rw [DeleteHostObject_trace]
    split
    · exact ⟨[_], rfl, by simp⟩
    · exact ⟨[], by simp, by simp⟩

/-! ## Number of exchanges per operation -/

/-- C4 fails as stated: a lookup that finds exactly one item calls `DoRequest` twice
(the filter request, then the by-id GET), and an operation whose request cannot be
built (here: Create with the nil context) never calls it. -/
theorem exactly_one_exchange_counterexample :
    (GetHostObjectByNameOrValue sampleClient
        (sampleWorld [sampleItem "h-1" "web"] (sampleHost "h-1" "web" "10.0.0.1") none)
        [] (.live 0) "web") =
      ((some (sampleHost "h-1" "web" "10.0.0.1"), none),
       [⟨⟨.live 0, "GET", "https://fmc/d/object/hosts?expanded=false&filter=nameOrValue:web",
          none⟩, .hostObjectsResponse, 200⟩,
        ⟨⟨.live 0, "GET", "https://fmc/d/object/hosts/h-1", none⟩, .hostObjectResponse, 200⟩]) ∧
    (CreateHostObject sampleClient
        (sampleWorld [] (sampleHost "h-1" "web" "10.0.0.1") none)
        [] .nilContext (some ⟨"web", "10.0.0.1", false, "", "Host"⟩)) =
      ((none, some "creating host objects: https://fmc/d/object/hosts - net/http: nil Context"),
       []) := by
  constructor <;> decide

/-- C4, amended: Create, Get, Update and Delete call `DoRequest` exactly once when their
request is built and not at all otherwise. The lookup does not call it when the filter
request is not built; it calls it once when the filter exchange fails or the list does
not have exactly one item; with exactly one item it calls it once for the filter and
then once more for the by-id GET if that request is built. -/
theorem exchanges_per_operation (v : Client) (w : World) (trace : List Call) (ctx : Context)
    (nameOrValue id : String) (object : Option HostObject)
    (upd : Option HostObjectUpdateInput) :
    (GetHostObjectByNameOrValue v w trace ctx nameOrValue).2.length = trace.length +
      (if w.newRequestErr ctx "GET" (v.domainBaseURL ++
          "/object/hosts?expanded=false&filter=nameOrValue:" ++ nameOrValue) = none then
        match (w.doRequest trace ⟨⟨ctx, "GET", w.urlString (v.domainBaseURL ++ "/object/hosts?expanded=false&filter=nameOrValue:" ++ nameOrValue), none⟩,
            .hostObjectsResponse, 200⟩).err,
          (w.doRequest trace ⟨⟨ctx, "GET", w.urlString (v.domainBaseURL ++ "/object/hosts?expanded=false&filter=nameOrValue:" ++ nameOrValue), none⟩,
            .hostObjectsResponse, 200⟩).list.Items with
        | none, [it] =>
          1 + (if w.newRequestErr ctx "GET" (v.domainBaseURL ++ "/object/hosts/" ++ it.ID) = none
            then 1 else 0)
        | _, _ => 1
      else 0) ∧
    (CreateHostObject v w trace ctx object).2.length = trace.length +
      (if w.newRequestErr ctx "POST" (v.domainBaseURL ++ "/object/hosts") = none
        then 1 else 0) ∧
    (GetHostObject v w trace ctx id).2.length = trace.length +
      (if w.newRequestErr ctx "GET" (v.domainBaseURL ++ "/object/hosts/" ++ id) = none
        then 1 else 0) ∧
    (UpdateHostObject v w trace ctx id upd).2.length = trace.length +
      (if w.newRequestErr ctx "PUT" (v.domainBaseURL ++ "/object/hosts/" ++ id) = none
        then 1 else 0) ∧
    (DeleteHostObject v w trace ctx id).2.length = trace.length +
      (if w.newRequestErr ctx "DELETE" (v.domainBaseURL ++ "/object/hosts/" ++ id) = none
        then 1 else 0) := by
  refine ⟨?_, ?_, ?_, ?_, ?_⟩
  · rw [GetHostObjectByNameOrValue_cases]
    cases hn : w.newRequestErr ctx "GET" (v.domainBaseURL ++
        "/object/hosts?expanded=false&filter=nameOrValue:" ++ nameOrValue) with
    | some e => simp
    | none =>
      simp only [if_true]
      generalize w.doRequest trace ⟨⟨ctx, "GET", w.urlString (v.domainBaseURL ++ "/object/hosts?expanded=false&filter=nameOrValue:" ++ nameOrValue), none⟩,
        .hostObjectsResponse, 200⟩ = rep
      obtain ⟨err, ⟨ls, items, pg⟩, item⟩ := rep
      cases err with
      | some e => simp
      | none =>
        rcases items with _ | ⟨a, _ | ⟨b, t⟩⟩
        · simp
        · simp only [GetHostObject_trace]
          split <;> simp
        · simp
  · obtain ⟨body, -, h⟩ := CreateHostObject_trace v w trace ctx object
    rw [h]; split <;> simp
  · rw [GetHostObject_trace]; split <;> simp
  · obtain ⟨body, -, h⟩ := UpdateHostObject_trace v w trace ctx id upd
    rw [h]; split <;> simp
  · rw [DeleteHostObject_trace]; split <;> simp

/-! ## Error messages -/

/-- C5 fails as stated: on a filter answer with two items the lookup returns the
duplicates error, whose message contains neither the URL the operation built nor the
action name. -/
theorem error_wrapping_counterexample :
    (GetHostObjectByNameOrValue sampleClient
        (sampleWorld [sampleItem "h-1" "web", sampleItem "h-2" "web2"]
          (sampleHost "h-1" "web" "10.0.0.1") none) [] (.live 0) "web").1 =
      (none, some ("duplicates found, length of response is: 2, expected 1, " ++
        "please search using a unique id, name or value")) ∧
    ¬ hasSubstr ("duplicates found, length of response is: 2, expected 1, " ++
        "please search using a unique id, name or value")
      "https://fmc/d/object/hosts?expanded=false&filter=nameOrValue:web" ∧
    ¬ hasSubstr ("duplicates found, length of response is: 2, expected 1, " ++
        "please search using a unique id, name or value") "getting" := by
  set_option maxRecDepth 20000 in
  refine ⟨by decide, by decide, by decide⟩

/-- Every error of `GetHostObject` contains the URL it built and the word "getting". -/
theorem GetHostObject_error (v : Client) (w : World) (trace : List Call) (ctx : Context)
    (id msg : String) (h : (GetHostObject v w trace ctx id).1.2 = some msg) :
    hasSubstr msg (v.domainBaseURL ++ "/object/hosts/" ++ id) ∧ hasSubstr msg "getting" := by
  cases hn : w.newRequestErr ctx "GET" (v.domainBaseURL ++ "/object/hosts/" ++ id) with
  | some e =>
    simp [GetHostObject, NewRequestWithContext_error none hn] at h
    subst h
    exact ⟨hasSubstr_wrapped_url _ _ _,
hasSubstr_wrapped_label _ _ _ _ (by decide)⟩
  | none =>
    simp only [GetHostObject, NewRequestWithContext_ok none hn, DoRequest] at h
    cases he : (w.doRequest trace ⟨⟨ctx, "GET", w.urlString (v.domainBaseURL ++ "/object/hosts/" ++ id), none⟩,
      .hostObjectResponse, StatusOK⟩).err with
    | none => simp [he] at h
    | some e =>
      simp [he] at h
      subst h
      exact ⟨hasSubstr_wrapped_url _ _ _,
hasSubstr_wrapped_label _ _ _ _ (by decide)⟩

/-- C5, amended: every error of `GetHostObject` contains the URL it built and "getting".
Every error of the lookup is either a wrapped error containing "getting" and the URL of
the request that failed (the filter URL, or the by-id URL of the single item when the
delegated Get fails), or the not-found or duplicates message, which carries the item
count and no URL. Every error of Create and of Update contains the URL built, and the one
for a request that cannot be built also says "creating", respectively "updating". The
error of Delete for a request that cannot be built contains the URL and "deleting". -/
theorem errors_carry_url (v : Client) (w : World) (trace : List Call) (ctx : Context)
    (nameOrValue id : String) (object : Option HostObject)
    (upd : Option HostObjectUpdateInput) :
    (∀ msg, (GetHostObject v w trace ctx id).1.2 = some msg →
      hasSubstr msg (v.domainBaseURL ++ "/object/hosts/" ++ id) ∧ hasSubstr msg "getting") ∧
    (∀ msg, (GetHostObjectByNameOrValue v w trace ctx nameOrValue).1.2 = some msg →
      (hasSubstr msg (v.domainBaseURL ++ "/object/hosts?expanded=false&filter=nameOrValue:" ++
          nameOrValue) ∧ hasSubstr msg "getting") ∨
      (∃ it, (w.doRequest trace ⟨⟨ctx, "GET", w.urlString (v.domainBaseURL ++ "/object/hosts?expanded=false&filter=nameOrValue:" ++ nameOrValue), none⟩,
            .hostObjectsResponse, 200⟩).list.Items = [it] ∧
          hasSubstr msg (v.domainBaseURL ++ "/object/hosts/" ++ it.ID) ∧
          hasSubstr msg "getting") ∨
      (∃ n, n = (w.doRequest trace ⟨⟨ctx, "GET", w.urlString (v.domainBaseURL ++ "/object/hosts?expanded=false&filter=nameOrValue:" ++ nameOrValue), none⟩,
            .hostObjectsResponse, 200⟩).list.Items.length ∧
          (msg = "no host objects found, length of response is: " ++ toString n ++
              ", expected 1, please check your filter" ∨
            msg = "duplicates found, length of response is: " ++ toString n ++
              ", expected 1, please search using a unique id, name or value"))) ∧
    (∀ msg, (CreateHostObject v w trace ctx object).1.2 = some msg →
      hasSubstr msg (v.domainBaseURL ++ "/object/hosts")) ∧
    (∀ e, w.newRequestErr ctx "POST" (v.domainBaseURL ++ "/object/hosts") = some e →
      ∃ msg, (CreateHostObject v w trace ctx object).1.2 = some msg ∧
        hasSubstr msg "creating") ∧
    (∀ msg, (UpdateHostObject v w trace ctx id upd).1.2 = some msg →
      hasSubstr msg (v.domainBaseURL ++ "/object/hosts/" ++ id)) ∧
    (∀ e, w.newRequestErr ctx "PUT" (v.domainBaseURL ++ "/object/hosts/" ++ id) = some e →
      ∃ msg, (UpdateHostObject v w trace ctx id upd).1.2 = some msg ∧
        hasSubstr msg "updating") ∧
    (∀ e, w.newRequestErr ctx "DELETE" (v.domainBaseURL ++ "/object/hosts/" ++ id) = some e →
      ∃ msg, (DeleteHostObject v w trace ctx id).1 = some msg ∧
        hasSubstr msg (v.domainBaseURL ++ "/object/hosts/" ++ id) ∧
        hasSubstr msg "deleting") := by
  refine ⟨fun msg h => GetHostObject_error v w trace ctx id msg h, ?_, ?_, ?_, ?_, ?_, ?_⟩
  · intro msg h
    rw [GetHostObjectByNameOrValue_cases] at h
    cases hn : w.newRequestErr ctx "GET" (v.domainBaseURL ++
        "/object/hosts?expanded=false&filter=nameOrValue:" ++ nameOrValue) with
    | some e =>
      simp only [hn, Option.some.injEq] at h
      subst h
      exact Or.inl ⟨hasSubstr_wrapped_url _ _ _, hasSubstr_wrapped_label _ _ _ _ (by decide)⟩
    | none =>
      simp only [hn] at h
      generalize w.doRequest trace ⟨⟨ctx, "GET", w.urlString (v.domainBaseURL ++ "/object/hosts?expanded=false&filter=nameOrValue:" ++ nameOrValue), none⟩,
        .hostObjectsResponse, 200⟩ = rep at h ⊢
      obtain ⟨err, ⟨ls, items, pg⟩, item⟩ := rep
      cases err with
      | some e =>
        simp only [Option.some.injEq] at h
        subst h
        exact Or.inl ⟨hasSubstr_wrapped_url _ _ _, hasSubstr_wrapped_label _ _ _ _ (by decide)⟩
      | none =>
        rcases items with _ | ⟨a, _ | ⟨b, t⟩⟩
        · simp only [Option.some.injEq] at h
          exact Or.inr (Or.inr ⟨0, rfl, Or.inl h.symm⟩)
        · exact Or.inr (Or.inl ⟨a, rfl, GetHostObject_error _ _ _ _ _ _ h⟩)
        · simp only [Option.some.injEq] at h
          exact Or.inr (Or.inr ⟨t.length + 2, by simp, Or.inr h.symm⟩)
  · intro msg h
    cases hn : w.newRequestErr ctx "POST" (v.domainBaseURL ++ "/object/hosts") with
    | some e =>
      cases object <;>
        simp [CreateHostObject, marshalHostObject, NewRequestWithContext_error _ hn] at h <;>
        (subst h; exact hasSubstr_wrapped_url _ _ _)
    | none =>
      cases object <;>
        simp only [CreateHostObject, marshalHostObject, NewRequestWithContext_ok _ hn,
          DoRequest] at h <;>
        split at h <;> simp at h <;> (subst h; exact hasSubstr_wrapped_url _ _ _)
  · intro e hn
    cases object <;>
      simp only [CreateHostObject, marshalHostObject, NewRequestWithContext_error _ hn] <;>
      exact ⟨_, rfl, hasSubstr_wrapped_label _ _ _ _ (by decide)⟩
  · intro msg h
    cases hn : w.newRequestErr ctx "PUT" (v.domainBaseURL ++ "/object/hosts/" ++ id) with
    | some e =>
      cases upd <;>
        simp [UpdateHostObject, marshalHostObjectUpdateInput,
          NewRequestWithContext_error _ hn] at h <;>
        (subst h; exact hasSubstr_wrapped_url _ _ _)
    | none =>
      cases upd <;>
        simp only [UpdateHostObject, marshalHostObjectUpdateInput,
          NewRequestWithContext_ok _ hn, DoRequest] at h <;>
        split at h <;> simp at h <;> (subst h; exact hasSubstr_wrapped_url _ _ _)
  · intro e hn
    cases upd <;>
      simp only [UpdateHostObject, marshalHostObjectUpdateInput,
        NewRequestWithContext_error _ hn] <;>
      exact ⟨_, rfl, hasSubstr_wrapped_label _ _ _ _ (by decide)⟩
  · intro e hn
    simp only [DeleteHostObject, NewRequestWithContext_error _ hn]
    exact ⟨_, rfl, hasSubstr_wrapped_url _ _ _, hasSubstr_wrapped_label _ _ _ _ (by decide)⟩

/-- C5, amended, at a concrete input: Delete with the nil context reports the URL and
"deleting". -/
theorem errors_carry_url_witness :
    ∃ msg, (DeleteHostObject sampleClient
        (sampleWorld [] (sampleHost "h-1" "web" "10.0.0.1") none) [] .nilContext "h-1").1 =
          some msg ∧
      hasSubstr msg (sampleClient.domainBaseURL ++ "/object/hosts/" ++ "h-1") ∧
      hasSubstr msg "deleting" :=
  (errors_carry_url sampleClient (sampleWorld [] (sampleHost "h-1" "web" "10.0.0.1") none)
    [] .nilContext "web" "h-1" none none).2.2.2.2.2.2 "net/http: nil Context" rfl

/-- The label on a failed exchange of Create is the one of Get: the message starts with
"getting host objects", not with "creating". -/
theorem create_exchange_error_label :
    (CreateHostObject sampleClient
        (sampleWorld [] (sampleHost "h-1" "web" "10.0.0.1") (some "unexpected status 400"))
        [] (.live 0) (some ⟨"web", "10.0.0.1", false, "", "Host"⟩)).1 =
      (none, some "getting host objects: https://fmc/d/object/hosts - unexpected status 400") := by
  decide

/-- The label on a failed exchange of Update is the one of Get as well. -/
theorem update_exchange_error_label :
    (UpdateHostObject sampleClient
        (sampleWorld [] (sampleHost "h-1" "web" "10.0.0.1") (some "unexpected status 400"))
        [] (.live 0) "h-1" (some ⟨"web", "10.0.0.1", false, "", "Host", "h-1"⟩)).1 =
      (none, some "getting host objects: https://fmc/d/object/hosts/h-1 - unexpected status 400") := by
  decide

/-- A failed exchange of Delete is returned as `DoRequest` reported it, without URL or
label. -/
theorem delete_exchange_error_unwrapped :
    (DeleteHostObject sampleClient
        (sampleWorld [] (sampleHost "h-1" "web" "10.0.0.1") (some "unexpected status 404"))
        [] (.live 0) "h-1").1 = some "unexpected status 404" := by
  decide

/-- C6: when the request of `CreateHostObject` is built, a failure `e` reported by
`DoRequest` (called with expected status 201) makes Create return no object and an error
whose message contains the collection URL `base ++ "/object/hosts"` and the text of `e`;
when `DoRequest` succeeds, Create returns the decoded response object and no error. -/
theorem create_result (v : Client) (w : World) (trace : List Call) (ctx : Context)
    (object : Option HostObject) (body : Json)
    (hbody : marshalHostObject object = .ok body)
    (hreq : w.newRequestErr ctx "POST" (v.domainBaseURL ++ "/object/hosts") = none) :
    (∀ e, (w.doRequest trace ⟨⟨ctx, "POST", w.urlString (v.domainBaseURL ++ "/object/hosts"), some body⟩,
          .hostObjectResponse, 201⟩).err = some e →
      ∃ msg, (CreateHostObject v w trace ctx object).1 = (none, some msg) ∧
        hasSubstr msg (v.domainBaseURL ++ "/object/hosts") ∧ hasSubstr msg e) ∧
    ((w.doRequest trace ⟨⟨ctx, "POST", w.urlString (v.domainBaseURL ++ "/object/hosts"), some body⟩,
          .hostObjectResponse, 201⟩).err = none →
      (CreateHostObject v w trace ctx object).1 =
        (some (w.doRequest trace ⟨⟨ctx, "POST", w.urlString (v.domainBaseURL ++ "/object/hosts"), some body⟩,
          .hostObjectResponse, 201⟩).item, none)) := by
  constructor
  · intro e he
    refine ⟨"getting host objects: " ++ (v.domainBaseURL ++ "/object/hosts") ++ " - " ++ e,
      ?_, hasSubstr_wrapped_url _ _ _, hasSubstr_wrapped_cause _ _ _⟩
    simp [CreateHostObject, hbody, NewRequestWithContext_ok _ hreq, DoRequest, StatusCreated, he]
  · intro he
    simp [CreateHostObject, hbody, NewRequestWithContext_ok _ hreq, DoRequest, StatusCreated, he]

/-- C6 at a concrete world: a transport failure "unexpected status 400" is reported with
the collection URL and its own text. -/
theorem create_result_witness :
    ∃ msg, (CreateHostObject sampleClient
        (sampleWorld [] (sampleHost "h-1" "web" "10.0.0.1") (some "unexpected status 400"))
        [] (.live 0) (some ⟨"web", "10.0.0.1", false, "", "Host"⟩)).1 = (none, some msg) ∧
      hasSubstr msg (sampleClient.domainBaseURL ++ "/object/hosts") ∧
      hasSubstr msg "unexpected status 400" :=
  (create_result sampleClient
    (sampleWorld [] (sampleHost "h-1" "web" "10.0.0.1") (some "unexpected status 400"))
    [] (.live 0) (some ⟨"web", "10.0.0.1", false, "", "Host"⟩) _ rfl rfl).1
    "unexpected status 400" rfl

/-- C7: when the request an operation constructs cannot be built, the operation returns no
object and an error whose message contains the URL it tried, and the trace is unchanged
(`DoRequest` is not called). For the lookup this is its own filter request. -/
theorem request_construction_failure (v : Client) (w : World) (trace : List Call)
    (ctx : Context) (nameOrValue id : String) (object : Option HostObject)
    (upd : Option HostObjectUpdateInput) :
    (∀ e, w.newRequestErr ctx "GET" (v.domainBaseURL ++
        "/object/hosts?expanded=false&filter=nameOrValue:" ++ nameOrValue) = some e →
      ∃ msg, GetHostObjectByNameOrValue v w trace ctx nameOrValue = ((none, some msg), trace) ∧
        hasSubstr msg (v.domainBaseURL ++ "/object/hosts?expanded=false&filter=nameOrValue:" ++
          nameOrValue)) ∧
    (∀ e, w.newRequestErr ctx "POST" (v.domainBaseURL ++ "/object/hosts") = some e →
      ∃ msg, CreateHostObject v w trace ctx object = ((none, some msg), trace) ∧
        hasSubstr msg (v.domainBaseURL ++ "/object/hosts")) ∧
    (∀ e, w.newRequestErr ctx "GET" (v.domainBaseURL ++ "/object/hosts/" ++ id) = some e →
      ∃ msg, GetHostObject v w trace ctx id = ((none, some msg), trace) ∧
        hasSubstr msg (v.domainBaseURL ++ "/object/hosts/" ++ id)) ∧
    (∀ e, w.newRequestErr ctx "PUT" (v.domainBaseURL ++ "/object/hosts/" ++ id) = some e →
      ∃ msg, UpdateHostObject v w trace ctx id upd = ((none, some msg), trace) ∧
        hasSubstr msg (v.domainBaseURL ++ "/object/hosts/" ++ id)) ∧
    (∀ e, w.newRequestErr ctx "DELETE" (v.domainBaseURL ++ "/object/hosts/" ++ id) = some e →
      ∃ msg, DeleteHostObject v w trace ctx id = (some msg, trace) ∧
        hasSubstr msg (v.domainBaseURL ++ "/object/hosts/" ++ id)) := by
  refine ⟨?_, ?_, ?_, ?_, ?_⟩
  · intro e hn
    refine ⟨_, ?_, hasSubstr_wrapped_url "getting host object by name/value: " _ e⟩
    simp [GetHostObjectByNameOrValue, NewRequestWithContext_error _ hn]
  · intro e hn
    refine ⟨_, ?_, hasSubstr_wrapped_url "creating host objects: " _ e⟩
    cases object <;> simp [CreateHostObject, marshalHostObject, NewRequestWithContext_error _ hn]
  · intro e hn
    refine ⟨_, ?_, hasSubstr_wrapped_url "getting host objects: " _ e⟩
    simp [GetHostObject, NewRequestWithContext_error _ hn]
  · intro e hn
    refine ⟨_, ?_, hasSubstr_wrapped_url "updating host objects: " _ e⟩
    cases upd <;>
      simp [UpdateHostObject, marshalHostObjectUpdateInput, NewRequestWithContext_error _ hn]
  · intro e hn
    refine ⟨_, ?_, hasSubstr_wrapped_url "deleting host objects: " _ e⟩
    simp [DeleteHostObject, NewRequestWithContext_error _ hn]

/-- C7 at a concrete input: with the nil context the lookup stops before any exchange. -/
theorem request_construction_failure_witness :
    ∃ msg, GetHostObjectByNameOrValue sampleClient
        (sampleWorld [sampleItem "h-1" "web"] (sampleHost "h-1" "web" "10.0.0.1") none)
        [] .nilContext "web" = ((none, some msg), []) ∧
      hasSubstr msg (sampleClient.domainBaseURL ++
        "/object/hosts?expanded=false&filter=nameOrValue:" ++ "web") :=
  (request_construction_failure sampleClient
    (sampleWorld [sampleItem "h-1" "web"] (sampleHost "h-1" "web" "10.0.0.1") none)
    [] .nilContext "web" "h-1" none none).1 "net/http: nil Context" rfl

/-! ## Shape of the results -/

/-- Every result of `GetHostObject` is all-or-nothing. -/
theorem GetHostObject_allOrNothing (v : Client) (w : World) (trace : List Call)
    (ctx : Context) (id : String) : allOrNothing (GetHostObject v w trace ctx id).1 := by
  cases hn : w.newRequestErr ctx "GET" (v.domainBaseURL ++ "/object/hosts/" ++ id) with
  | some e => simp [allOrNothing, GetHostObject, NewRequestWithContext_error none hn]
  | none =>
    simp only [GetHostObject, NewRequestWithContext_ok none hn, DoRequest]
    split <;> simp [allOrNothing]

/-- C8: each of the lookup, Create, Get and Update returns either an object with a nil
error or no object with a non-nil error; Delete returns a nil error exactly when its
request was built and its `DoRequest` call returned a nil error. -/
theorem no_partial_success (v : Client) (w : World) (trace : List Call) (ctx : Context)
    (nameOrValue id : String) (object : Option HostObject)
    (upd : Option HostObjectUpdateInput) :
    allOrNothing (GetHostObjectByNameOrValue v w trace ctx nameOrValue).1 ∧
    allOrNothing (CreateHostObject v w trace ctx object).1 ∧
    allOrNothing (GetHostObject v w trace ctx id).1 ∧
    allOrNothing (UpdateHostObject v w trace ctx id upd).1 ∧
    ((DeleteHostObject v w trace ctx id).1 = none ↔
      (w.newRequestErr ctx "DELETE" (v.domainBaseURL ++ "/object/hosts/" ++ id) = none ∧
        (w.doRequest trace ⟨⟨ctx, "DELETE", w.urlString (v.domainBaseURL ++ "/object/hosts/" ++ id), none⟩,
          .nilTarget, 200⟩).err = none)) := by
  refine ⟨?_, ?_, GetHostObject_allOrNothing v w trace ctx id, ?_, ?_⟩
  · rw [GetHostObjectByNameOrValue_cases]
    cases hn : w.newRequestErr ctx "GET" (v.domainBaseURL ++
        "/object/hosts?expanded=false&filter=nameOrValue:" ++ nameOrValue) with
    | some e => simp [allOrNothing]
    | none =>
      simp only []
      split
      · simp [allOrNothing]
      · simp [allOrNothing]
      · exact GetHostObject_allOrNothing _ _ _ _ _
      · simp [allOrNothing]
  · cases hn : w.newRequestErr ctx "POST" (v.domainBaseURL ++ "/object/hosts") with
    | some e =>
      cases object <;>
        simp [allOrNothing, CreateHostObject, marshalHostObject,
          NewRequestWithContext_error _ hn]
    | none =>
      cases object <;>
        simp only [CreateHostObject, marshalHostObject, NewRequestWithContext_ok _ hn,
          DoRequest] <;>
        split <;> simp [allOrNothing]
  · cases hn : w.newRequestErr ctx "PUT" (v.domainBaseURL ++ "/object/hosts/" ++ id) with
    | some e =>
      cases upd <;>
        simp [allOrNothing, UpdateHostObject, marshalHostObjectUpdateInput,
          NewRequestWithContext_error _ hn]
    | none =>
      cases upd <;>
        simp only [UpdateHostObject, marshalHostObjectUpdateInput,
          NewRequestWithContext_ok _ hn, DoRequest] <;>
        split <;> simp [allOrNothing]
  · cases hn : w.newRequestErr ctx "DELETE" (v.domainBaseURL ++ "/object/hosts/" ++ id) with
    | some e => simp [DeleteHostObject, NewRequestWithContext_error _ hn]
    | none => simp [DeleteHostObject, NewRequestWithContext_ok _ hn, DoRequest, StatusOK]

/-! ## Request bodies -/

/-- C9: for a non-nil `HostObject`, the body of the request Create hands to `DoRequest` is
the JSON object with exactly the keys name, value, overridable, description and type,
each carrying the input's field, and no id key; for a non-nil `HostObjectUpdateInput`,
the body of Update's request has those five keys followed by id, carrying the input's
ID. -/
theorem request_bodies (v : Client) (w : World) (trace : List Call) (ctx : Context)
    (id : String) (o : HostObject) (u : HostObjectUpdateInput) :
    (CreateHostObject v w trace ctx (some o)).2 =
      (if w.newRequestErr ctx "POST" (v.domainBaseURL ++ "/object/hosts") = none then
        trace ++ [⟨⟨ctx, "POST", w.urlString (v.domainBaseURL ++ "/object/hosts"),
          some (Json.obj [("name", .str o.Name), ("value", .str o.Value),
            ("overridable", .bool o.Overridable), ("description", .str o.Description),
            ("type", .str o.Type_)])⟩, .hostObjectResponse, 201⟩]
      else trace) ∧
    (Json.obj [("name", .str o.Name), ("value", .str o.Value),
        ("overridable", .bool o.Overridable), ("description", .str o.Description),
        ("type", .str o.Type_)]).keys =
      ["name", "value", "overridable", "description", "type"] ∧
    (Json.obj [("name", .str o.Name), ("value", .str o.Value),
        ("overridable", .bool o.Overridable), ("description", .str o.Description),
        ("type", .str o.Type_)]).lookup "id" = none ∧
    (UpdateHostObject v w trace ctx id (some u)).2 =
      (if w.newRequestErr ctx "PUT" (v.domainBaseURL ++ "/object/hosts/" ++ id) = none then
        trace ++ [⟨⟨ctx, "PUT", w.urlString (v.domainBaseURL ++ "/object/hosts/" ++ id),
          some (Json.obj [("name", .str u.Name), ("value", .str u.Value),
            ("overridable", .bool u.Overridable), ("description", .str u.Description),
            ("type", .str u.Type_), ("id", .str u.ID)])⟩, .hostObjectResponse, 200⟩]
      else trace) ∧
    (Json.obj [("name", .str u.Name), ("value", .str u.Value),
        ("overridable", .bool u.Overridable), ("description", .str u.Description),
        ("type", .str u.Type_), ("id", .str u.ID)]).keys =
      ["name", "value", "overridable", "description", "type", "id"] ∧
    (Json.obj [("name", .str u.Name), ("value", .str u.Value),
        ("overridable", .bool u.Overridable), ("description", .str u.Description),
        ("type", .str u.Type_), ("id", .str u.ID)]).lookup "id" = some (.str u.ID) := by
  refine ⟨?_, rfl, rfl, ?_, rfl, rfl⟩
  · obtain ⟨body, hb, h⟩ := CreateHostObject_trace v w trace ctx (some o)
    simp only [marshalHostObject, Except.ok.injEq] at hb
    rw [h, ← hb]
  · obtain ⟨body, hb, h⟩ := UpdateHostObject_trace v w trace ctx id (some u)
    simp only [marshalHostObjectUpdateInput, Except.ok.injEq] at hb
    rw [h, ← hb]

/-! ## Update: the id argument and the input's ID -/

/-- C10: for every id and every input `u`, whatever `u.ID` is, `UpdateHostObject` builds
its PUT URL from the id argument alone (the request carries the URL parsed from
`base ++ "/object/hosts/" ++ id`), sends `u.ID` unchanged under the key id, and its
result is decided by the request construction and the `DoRequest` reply only: it returns
an error exactly when one of the two reports one. -/
theorem update_ignores_id_mismatch (v : Client) (w : World) (trace : List Call)
    (ctx : Context) (id : String) (u : HostObjectUpdateInput) :
    UpdateHostObject v w trace ctx id (some u) =
      (match w.newRequestErr ctx "PUT" (v.domainBaseURL ++ "/object/hosts/" ++ id) with
      | some e =>
        ((none, some ("updating host objects: " ++ (v.domainBaseURL ++ "/object/hosts/" ++ id) ++
          " - " ++ e)), trace)
      | none =>
        match (w.doRequest trace ⟨⟨ctx, "PUT", w.urlString (v.domainBaseURL ++ "/object/hosts/" ++ id),
            some (Json.obj [("name", .str u.Name), ("value", .str u.Value),
              ("overridable", .bool u.Overridable), ("description", .str u.Description),
              ("type", .str u.Type_), ("id", .str u.ID)])⟩, .hostObjectResponse, 200⟩).err with
        | some e =>
          ((none, some ("getting host objects: " ++ (v.domainBaseURL ++ "/object/hosts/" ++ id) ++
            " - " ++ e)),
            trace ++ [⟨⟨ctx, "PUT", w.urlString (v.domainBaseURL ++ "/object/hosts/" ++ id),
              some (Json.obj [("name", .str u.Name), ("value", .str u.Value),
                ("overridable", .bool u.Overridable), ("description", .str u.Description),
                ("type", .str u.Type_), ("id", .str u.ID)])⟩, .hostObjectResponse, 200⟩])
        | none =>
          ((some (w.doRequest trace ⟨⟨ctx, "PUT", w.urlString (v.domainBaseURL ++ "/object/hosts/" ++ id),
              some (Json.obj [("name", .str u.Name), ("value", .str u.Value),
                ("overridable", .bool u.Overridable), ("description", .str u.Description),
                ("type", .str u.Type_), ("id", .str u.ID)])⟩, .hostObjectResponse, 200⟩).item,
            none),
            trace ++ [⟨⟨ctx, "PUT", w.urlString (v.domainBaseURL ++ "/object/hosts/" ++ id),
              some (Json.obj [("name", .str u.Name), ("value", .str u.Value),
                ("overridable", .bool u.Overridable), ("description", .str u.Description),
                ("type", .str u.Type_), ("id", .str u.ID)])⟩, .hostObjectResponse, 200⟩])) ∧
    ((UpdateHostObject v w trace ctx id (some u)).1.2 = none ↔
      (w.newRequestErr ctx "PUT" (v.domainBaseURL ++ "/object/hosts/" ++ id) = none ∧
        (w.doRequest trace ⟨⟨ctx, "PUT", w.urlString (v.domainBaseURL ++ "/object/hosts/" ++ id),
            some (Json.obj [("name", .str u.Name), ("value", .str u.Value),
              ("overridable", .bool u.Overridable), ("description", .str u.Description),
              ("type", .str u.Type_), ("id", .str u.ID)])⟩, .hostObjectResponse, 200⟩).err =
          none)) := by
  cases hn : w.newRequestErr ctx "PUT" (v.domainBaseURL ++ "/object/hosts/" ++ id) with
  | some e =>
    simp [UpdateHostObject, marshalHostObjectUpdateInput, NewRequestWithContext_error _ hn]
  | none =>
    simp only [UpdateHostObject, marshalHostObjectUpdateInput, NewRequestWithContext_ok _ hn,
      DoRequest, StatusOK]
    cases (w.doRequest trace ⟨⟨ctx, "PUT", w.urlString (v.domainBaseURL ++ "/object/hosts/" ++ id),
        some (Json.obj [("name", .str u.Name), ("value", .str u.Value),
          ("overridable", .bool u.Overridable), ("description", .str u.Description),
          ("type", .str u.Type_), ("id", .str u.ID)])⟩, .hostObjectResponse, 200⟩).err <;> simp

end Fmc
